import Mathlib

/-!
Verification development for the CEED repository.

Shallow embedding of the Python sources:
* `src/CEED_universal_model.py` — `FeedbackLoop`, `SystemState`, `CEEDSystem`
  (discrete-time energy integrator, buffer depletion, phase classification);
* `src/experiments/run_mc.py` — `ParameterRange`, `sample_parameter`,
  `run_simple_model`, `run_monte_carlo` (the ambient global numpy RNG is
  modelled as an explicit stream `g : ℕ → ℝ` of unit draws consumed in
  program order);
* `src/simulation/convergence_model.py` — `critical_thresholds`,
  `classify_phases`, and the extended model's `unknown_dissipation`.

Machine floats are modelled as real numbers; `np.exp`, `np.log` and real
exponentiation become `Real.exp`, `Real.log` and `Real.rpow`.
-/

namespace CEED

/-- One feedback mechanism (`src/CEED_universal_model.py`, `class FeedbackLoop`).
`saturation_threshold` is `None`-able in Python, hence `Option ℝ` here. -/
structure FeedbackLoop where
  name : String
  polarity : String
  strength : ℝ
  saturation_threshold : Option ℝ

/-- The effective strength computed inside `FeedbackLoop.apply`
(`src/CEED_universal_model.py` lines 21-27).  The Python guard
`if self.saturation_threshold and abs(state) > self.saturation_threshold`
treats both `None` and `0.0` as falsy, hence the `s ≠ 0` conjunct. -/
noncomputable def FeedbackLoop.effective_strength (fb : FeedbackLoop) (state : ℝ) : ℝ :=
  match fb.saturation_threshold with
  | none => fb.strength
  | some s =>
      if s ≠ 0 ∧ |state| > s then
        max (0.1 * fb.strength) (fb.strength * (1 - |state| / (s * 2)))
      else
        fb.strength

/-- `FeedbackLoop.apply(state, external_forcing)`
(`src/CEED_universal_model.py` lines 21-33): positive polarity amplifies,
every other polarity string takes the `else` (negative-feedback) branch. -/
noncomputable def FeedbackLoop.apply (fb : FeedbackLoop) (state : ℝ)
    (external_forcing : ℝ) : ℝ :=
  if fb.polarity = "positive" then
    state * (1 + fb.effective_strength state) + external_forcing
  else
    state * (1 - fb.effective_strength state) + external_forcing

/-- Equation lemma for `effective_strength` when a saturation threshold is set. -/
theorem FeedbackLoop.effective_strength_some (fb : FeedbackLoop) (S state : ℝ)
    (hS : fb.saturation_threshold = some S) :
    fb.effective_strength state =
      if S ≠ 0 ∧ |state| > S then
        max (0.1 * fb.strength) (fb.strength * (1 - |state| / (S * 2)))
      else fb.strength := by
  unfold FeedbackLoop.effective_strength
  rw [hS]

/-- C2: for a `FeedbackLoop` with `saturation_threshold = some S`, `S > 0` and
nonnegative `strength`, the effective strength used by `apply` equals
`max (0.1·strength) (strength·(1 − |v|/(2·S)))` when `|v| > S` and equals
`strength` otherwise; consequently it is never below `0.1·strength` at any
input magnitude (in particular at `|v| = 10·S`): the saturation floor holds. -/
theorem effective_strength_saturation_floor (fb : FeedbackLoop) (S v : ℝ)
    (hS : fb.saturation_threshold = some S) (hSpos : 0 < S)
    (hstr : 0 ≤ fb.strength) :
    (|v| > S →
      fb.effective_strength v
        = max (0.1 * fb.strength) (fb.strength * (1 - |v| / (2 * S))))
    ∧ (¬ |v| > S → fb.effective_strength v = fb.strength)
    ∧ 0.1 * fb.strength ≤ fb.effective_strength v := by
  have hne : S ≠ 0 := ne_of_gt hSpos
  rw [fb.effective_strength_some S v hS]
  refine ⟨?_, ?_, ?_⟩
  · intro hv
    rw [if_pos ⟨hne, hv⟩]
    rw [mul_comm S 2]
  · intro hv
    rw [if_neg]
    intro hc
    exact hv hc.2
  · by_cases hv : S ≠ 0 ∧ |v| > S
    · rw [if_pos hv]
      exact le_max_left _ _
    · rw [if_neg hv]
      nlinarith

/-- Witness for `effective_strength_saturation_floor` at a concrete loop with
threshold 2, strength 1 and input 30. -/
theorem effective_strength_saturation_floor_witness :
    0.1 * (FeedbackLoop.mk "w" "negative" 1 (some 2)).strength
      ≤ (FeedbackLoop.mk "w" "negative" 1 (some 2)).effective_strength 30 :=
  (effective_strength_saturation_floor (FeedbackLoop.mk "w" "negative" 1 (some 2))
    2 30 rfl (by norm_num) (by norm_num)).2.2

/-- C10: `FeedbackLoop.apply` never validates `polarity`: any polarity string
other than exactly `"positive"` takes the negative-feedback branch, returning
`value·(1 − effective_strength) + external_forcing`. -/
theorem apply_unrecognized_polarity_is_negative (fb : FeedbackLoop) (v f : ℝ)
    (h : fb.polarity ≠ "positive") :
    fb.apply v f = v * (1 - fb.effective_strength v) + f := by
  unfold FeedbackLoop.apply
  rw [if_neg h]

/-- Witness for `apply_unrecognized_polarity_is_negative` at the unrecognized
polarity string "banana". -/
theorem apply_unrecognized_polarity_is_negative_witness :
    (FeedbackLoop.mk "x" "banana" 0.5 none).apply 2 3
      = 2 * (1 - (FeedbackLoop.mk "x" "banana" 0.5 none).effective_strength 2) + 3 :=
  apply_unrecognized_polarity_is_negative (FeedbackLoop.mk "x" "banana" 0.5 none)
    2 3 (by decide)

/-- `SystemState` (`src/CEED_universal_model.py`, `class SystemState`). -/
structure SystemState where
  energy : ℝ
  retention : ℝ
  dissipation : ℝ
  buffer_capacity : ℝ

/-- `CEEDSystem` (`src/CEED_universal_model.py`, `class CEEDSystem`): feedback
list, mutable state and the three fixed thresholds set by `__init__`. -/
structure CEEDSystem where
  name : String
  feedbacks : List FeedbackLoop
  state : SystemState
  warning_threshold : ℝ
  critical_threshold : ℝ
  tipping_point : ℝ

/-- `CEEDSystem.__init__(name)` (`src/CEED_universal_model.py` lines 70-83):
takes only a name; state starts at energy 0, retention 1, dissipation 1,
buffer 1; thresholds are hard-coded to 100 / 200 / 300. -/
noncomputable def CEEDSystem.init (name : String) : CEEDSystem :=
  { name := name
    feedbacks := []
    state := { energy := 0, retention := 1, dissipation := 1, buffer_capacity := 1 }
    warning_threshold := 100
    critical_threshold := 200
    tipping_point := 300 }

/-- `CEEDSystem.compute_retention(energy)` (`src/CEED_universal_model.py`
lines 89-98): `base_retention = 1.05`, `collapse_rate = 0.001`,
returning `base_retention * exp(-collapse_rate * energy**2)`. -/
noncomputable def compute_retention (energy : ℝ) : ℝ :=
  1.05 * Real.exp (-(0.001) * energy ^ 2)

/-- `CEEDSystem.compute_dissipation(energy)` (`src/CEED_universal_model.py`
lines 100-110): `0.05 * energy + 0.001 * energy ** 1.5` (real-exponent power). -/
noncomputable def compute_dissipation (energy : ℝ) : ℝ :=
  0.05 * energy + 0.001 * energy ^ (1.5 : ℝ)

/-- `CEEDSystem.apply_feedbacks(external_forcing)`: sequential left fold of
`FeedbackLoop.apply` over the configured loops, starting from current energy. -/
noncomputable def CEEDSystem.apply_feedbacks (sys : CEEDSystem)
    (external_forcing : ℝ) : ℝ :=
  sys.feedbacks.foldl (fun acc fb => fb.apply acc external_forcing) sys.state.energy

/-- `CEEDSystem.update(external_forcing, dt)` (`src/CEED_universal_model.py`
lines 121-147): recompute retention/dissipation from the pre-step energy,
apply feedbacks, advance energy by `(feedback_effect·retention − dissipation)·dt`,
then deplete the buffer when the resulting energy exceeds the warning
threshold (`buffer *= 1 − 0.01·(energy/warning)·dt`, floored at 0). -/
noncomputable def CEEDSystem.update (sys : CEEDSystem)
    (external_forcing : ℝ) (dt : ℝ) : CEEDSystem :=
  let retention := compute_retention sys.state.energy
  let dissipation := compute_dissipation sys.state.energy
  let feedback_effect := sys.apply_feedbacks external_forcing
  let newEnergy := sys.state.energy + (feedback_effect * retention - dissipation) * dt
  let newBuffer :=
    if newEnergy > sys.warning_threshold then
      max 0 (sys.state.buffer_capacity
        * (1 - 0.01 * (newEnergy / sys.warning_threshold) * dt))
    else sys.state.buffer_capacity
  { sys with
      state :=
        { energy := newEnergy
          retention := retention
          dissipation := dissipation
          buffer_capacity := newBuffer } }

/-- `CEEDSystem.classify_state()` (`src/CEED_universal_model.py` lines 149-163). -/
noncomputable def CEEDSystem.classify_state (sys : CEEDSystem) : String :=
  if sys.state.energy < sys.warning_threshold then "stable"
  else if sys.state.energy < sys.critical_threshold then "stressed"
  else if sys.state.energy < sys.tipping_point then "critical"
  else "tipping"

/-- State trajectory of `CEEDSystem.simulate` (`src/CEED_universal_model.py`
lines 186-210): iterate `update` with per-step forcing and fixed `dt`. -/
noncomputable def CEEDSystem.simulateFrom (sys : CEEDSystem)
    (forcing : ℕ → ℝ) (dt : ℝ) : ℕ → CEEDSystem
  | 0 => sys
  | n + 1 => (sys.simulateFrom forcing dt n).update (forcing n) dt

/-- The constructed system with its current energy replaced (helper for
stating pointwise classification facts). -/
noncomputable def CEEDSystem.withEnergy (sys : CEEDSystem) (E : ℝ) : CEEDSystem :=
  { sys with state := { sys.state with energy := E } }

/-- Modelled from the spec: the closed-form recurrence claimed for the
zero-feedback scenario — `E' = E + (E·retention(E) − dissipation(E))·dt` with
`retention(E) = 1.05·exp(−0.001·E²)`, `dissipation(E) = 0.05·E + 0.001·E^1.5`
and `dt = 0.1`, written out from the spec's laws for comparison with the
code's trajectory. -/
noncomputable def closedFormEnergy (E0 : ℝ) : ℕ → ℝ
  | 0 => E0
  | n + 1 =>
      closedFormEnergy E0 n
        + (closedFormEnergy E0 n
              * (1.05 * Real.exp (-(0.001) * closedFormEnergy E0 n ^ 2))
            - (0.05 * closedFormEnergy E0 n
                + 0.001 * closedFormEnergy E0 n ^ (1.5 : ℝ))) * 0.1

/-- `update` leaves the configured feedback list unchanged. -/
theorem CEEDSystem.update_feedbacks (sys : CEEDSystem) (f dt : ℝ) :
    (sys.update f dt).feedbacks = sys.feedbacks := rfl

/-- `update` leaves the warning threshold unchanged. -/
theorem CEEDSystem.update_warning (sys : CEEDSystem) (f dt : ℝ) :
    (sys.update f dt).warning_threshold = sys.warning_threshold := rfl

/-- The energy written by one `update` step, in terms of the pre-step state. -/
theorem CEEDSystem.update_energy (sys : CEEDSystem) (f dt : ℝ) :
    (sys.update f dt).state.energy
      = sys.state.energy
        + (sys.apply_feedbacks f * compute_retention sys.state.energy
            - compute_dissipation sys.state.energy) * dt := rfl

/-- With no configured loops, `apply_feedbacks` returns the current energy. -/
theorem CEEDSystem.apply_feedbacks_nil (sys : CEEDSystem) (f : ℝ)
    (h : sys.feedbacks = []) : sys.apply_feedbacks f = sys.state.energy := by
  unfold CEEDSystem.apply_feedbacks
  rw [h]
  rfl

/-- The simulated trajectory never acquires feedback loops. -/
theorem CEEDSystem.simulateFrom_feedbacks (sys : CEEDSystem)
    (forcing : ℕ → ℝ) (dt : ℝ) (n : ℕ) :
    (sys.simulateFrom forcing dt n).feedbacks = sys.feedbacks := by
  induction n with
  | zero => rfl
  | succ n ih =>
      rw [CEEDSystem.simulateFrom, CEEDSystem.update_feedbacks]
      exact ih

/-- C1: one `update` step derives retention `1.05·exp(−0.001·E²)` and
dissipation `0.05·E + 0.001·E^1.5` from the pre-step energy `E` and sets the
energy to `E + (feedback_effect·retention − dissipation)·dt`; with zero
configured feedback loops, `dt = 0.1` and zero external forcing, the whole
energy trajectory (in particular its first 10 steps) coincides exactly with
the closed-form recurrence from these laws alone, hence within `1e-9`. -/
theorem update_energy_law_and_zero_feedback_trajectory :
    (∀ (sys : CEEDSystem) (f dt : ℝ),
      (sys.update f dt).state.energy
        = sys.state.energy
          + (sys.apply_feedbacks f
                * (1.05 * Real.exp (-(0.001) * sys.state.energy ^ 2))
              - (0.05 * sys.state.energy
                  + 0.001 * sys.state.energy ^ (1.5 : ℝ))) * dt
      ∧ (sys.update f dt).state.retention = compute_retention sys.state.energy
      ∧ (sys.update f dt).state.dissipation = compute_dissipation sys.state.energy)
    ∧ ∀ (E0 : ℝ) (n : ℕ),
        (((CEEDSystem.init "zero").withEnergy E0).simulateFrom
            (fun _ => 0) 0.1 n).state.energy = closedFormEnergy E0 n
        ∧ |(((CEEDSystem.init "zero").withEnergy E0).simulateFrom
              (fun _ => 0) 0.1 n).state.energy - closedFormEnergy E0 n| ≤ 1e-9 := by
  constructor
  · intro sys f dt
    refine ⟨sys.update_energy f dt, rfl, rfl⟩
  · intro E0 n
    have key : ∀ m : ℕ,
        (((CEEDSystem.init "zero").withEnergy E0).simulateFrom
            (fun _ => 0) 0.1 m).state.energy = closedFormEnergy E0 m := by
      intro m
      induction m with
      | zero => rfl
      | succ m ih =>
          rw [CEEDSystem.simulateFrom, CEEDSystem.update_energy,
            CEEDSystem.apply_feedbacks_nil _ _
              (CEEDSystem.simulateFrom_feedbacks _ _ _ m), ih,
            closedFormEnergy, compute_retention, compute_dissipation]
    refine ⟨key n, ?_⟩
    rw [key n, sub_self, abs_zero]
    norm_num

/-- C4: with the constructed thresholds (warning 100, critical 200,
tipping 300), `classify_state` returns `stable` at energy 50, `stressed` at
150, `critical` at 250 and `tipping` at 350; and the classification is a pure
function of the current energy and the three thresholds alone (no other state
dependence, no hysteresis). -/
theorem classify_state_thresholds :
    ((CEEDSystem.init "S").withEnergy 50).classify_state = "stable"
    ∧ ((CEEDSystem.init "S").withEnergy 150).classify_state = "stressed"
    ∧ ((CEEDSystem.init "S").withEnergy 250).classify_state = "critical"
    ∧ ((CEEDSystem.init "S").withEnergy 350).classify_state = "tipping"
    ∧ ∀ s t : CEEDSystem, s.state.energy = t.state.energy →
        s.warning_threshold = t.warning_threshold →
        s.critical_threshold = t.critical_threshold →
        s.tipping_point = t.tipping_point →
        s.classify_state = t.classify_state := by
  refine ⟨?_, ?_, ?_, ?_, ?_⟩
  · show (if (50 : ℝ) < 100 then "stable" else if (50 : ℝ) < 200 then "stressed"
      else if (50 : ℝ) < 300 then "critical" else "tipping") = "stable"
    norm_num
  · show (if (150 : ℝ) < 100 then "stable" else if (150 : ℝ) < 200 then "stressed"
      else if (150 : ℝ) < 300 then "critical" else "tipping") = "stressed"
    norm_num
  · show (if (250 : ℝ) < 100 then "stable" else if (250 : ℝ) < 200 then "stressed"
      else if (250 : ℝ) < 300 then "critical" else "tipping") = "critical"
    norm_num
  · show (if (350 : ℝ) < 100 then "stable" else if (350 : ℝ) < 200 then "stressed"
      else if (350 : ℝ) < 300 then "critical" else "tipping") = "tipping"
    norm_num
  · intro s t hE hw hc ht
    unfold CEEDSystem.classify_state
    rw [hE, hw, hc, ht]

/-- Witness for `classify_state_thresholds`: two systems differing only in
name classify identically at energy 50. -/
theorem classify_state_thresholds_witness :
    ((CEEDSystem.init "A").withEnergy 50).classify_state
      = ((CEEDSystem.init "B").withEnergy 50).classify_state :=
  classify_state_thresholds.2.2.2.2 _ _ rfl rfl rfl rfl

/-- The buffer written by one `update` step, in terms of the post-step energy. -/
theorem CEEDSystem.update_buffer (sys : CEEDSystem) (f dt : ℝ) :
    (sys.update f dt).state.buffer_capacity
      = if (sys.update f dt).state.energy > sys.warning_threshold then
          max 0 (sys.state.buffer_capacity
            * (1 - 0.01 * ((sys.update f dt).state.energy / sys.warning_threshold) * dt))
        else sys.state.buffer_capacity := rfl

/-- One-step buffer facts: the buffer never increases, stays in `[0,1]`,
is depleted by the proportional factor when the resulting energy exceeds the
warning threshold, and is left unchanged otherwise. -/
theorem CEEDSystem.update_buffer_facts (sys : CEEDSystem) (f dt : ℝ)
    (hw : 0 < sys.warning_threshold) (hdt : 0 ≤ dt)
    (h0 : 0 ≤ sys.state.buffer_capacity) (h1 : sys.state.buffer_capacity ≤ 1) :
    (sys.update f dt).state.buffer_capacity ≤ sys.state.buffer_capacity
    ∧ 0 ≤ (sys.update f dt).state.buffer_capacity
    ∧ (sys.update f dt).state.buffer_capacity ≤ 1
    ∧ ((sys.update f dt).state.energy > sys.warning_threshold →
        (sys.update f dt).state.buffer_capacity
          = max 0 (sys.state.buffer_capacity
              * (1 - 0.01 * ((sys.update f dt).state.energy / sys.warning_threshold) * dt)))
    ∧ (¬ (sys.update f dt).state.energy > sys.warning_threshold →
        (sys.update f dt).state.buffer_capacity = sys.state.buffer_capacity) := by
  rw [sys.update_buffer f dt]
  by_cases hE : (sys.update f dt).state.energy > sys.warning_threshold
  · rw [if_pos hE]
    have hratio : (0 : ℝ) < (sys.update f dt).state.energy / sys.warning_threshold :=
      div_pos (lt_trans hw hE) hw
    have hd : (0 : ℝ) ≤ 0.01 * ((sys.update f dt).state.energy / sys.warning_threshold) * dt :=
      mul_nonneg (mul_nonneg (by norm_num) (le_of_lt hratio)) hdt
    have hle : sys.state.buffer_capacity
        * (1 - 0.01 * ((sys.update f dt).state.energy / sys.warning_threshold) * dt)
        ≤ sys.state.buffer_capacity := by
      nlinarith
    have hmax : max 0 (sys.state.buffer_capacity
        * (1 - 0.01 * ((sys.update f dt).state.energy / sys.warning_threshold) * dt))
        ≤ sys.state.buffer_capacity := max_le h0 hle
    exact ⟨hmax, le_max_left _ _, le_trans hmax h1, fun _ => rfl,
      fun hc => absurd hE hc⟩
  · rw [if_neg hE]
    exact ⟨le_refl _, h0, h1, fun hc => absurd hc hE, fun _ => rfl⟩

/-- The warning threshold is constant along the trajectory. -/
theorem CEEDSystem.simulateFrom_warning (sys : CEEDSystem)
    (forcing : ℕ → ℝ) (dt : ℝ) (n : ℕ) :
    (sys.simulateFrom forcing dt n).warning_threshold = sys.warning_threshold := by
  induction n with
  | zero => rfl
  | succ n ih =>
      rw [CEEDSystem.simulateFrom, CEEDSystem.update_warning]
      exact ih

/-- Buffer bounds hold along the whole trajectory. -/
theorem CEEDSystem.simulateFrom_buffer_bounds (sys : CEEDSystem)
    (forcing : ℕ → ℝ) (dt : ℝ)
    (hw : 0 < sys.warning_threshold) (hdt : 0 ≤ dt)
    (h0 : 0 ≤ sys.state.buffer_capacity) (h1 : sys.state.buffer_capacity ≤ 1) :
    ∀ n : ℕ, 0 ≤ (sys.simulateFrom forcing dt n).state.buffer_capacity
      ∧ (sys.simulateFrom forcing dt n).state.buffer_capacity ≤ 1 := by
  intro n
  induction n with
  | zero => exact ⟨h0, h1⟩
  | succ n ih =>
      have hw' : 0 < (sys.simulateFrom forcing dt n).warning_threshold := by
        rw [sys.simulateFrom_warning forcing dt n]
        exact hw
      have step := (sys.simulateFrom forcing dt n).update_buffer_facts
        (forcing n) dt hw' hdt ih.1 ih.2
      exact ⟨step.2.1, step.2.2.1⟩

/-- C8: in every discrete-time run starting with `buffer_capacity ∈ [0,1]` and
`dt ≥ 0` (warning threshold positive, as constructed), the buffer is
non-increasing step over step and remains in `[0,1]`; on any step whose
resulting energy exceeds the warning threshold it is depleted by the factor
`1 − 0.01·(energy/warning)·dt` (floored at 0, proportional to
`energy/warning_threshold`), and it is left unchanged otherwise — in
particular it is non-increasing at every step of a run whose energy stays
above the warning threshold. -/
theorem buffer_capacity_monotone (sys : CEEDSystem) (forcing : ℕ → ℝ) (dt : ℝ)
    (hw : 0 < sys.warning_threshold) (hdt : 0 ≤ dt)
    (h0 : 0 ≤ sys.state.buffer_capacity) (h1 : sys.state.buffer_capacity ≤ 1) :
    ∀ n : ℕ,
      (sys.simulateFrom forcing dt (n + 1)).state.buffer_capacity
          ≤ (sys.simulateFrom forcing dt n).state.buffer_capacity
      ∧ 0 ≤ (sys.simulateFrom forcing dt n).state.buffer_capacity
      ∧ (sys.simulateFrom forcing dt n).state.buffer_capacity ≤ 1
      ∧ ((sys.simulateFrom forcing dt (n + 1)).state.energy > sys.warning_threshold →
          (sys.simulateFrom forcing dt (n + 1)).state.buffer_capacity
            = max 0 ((sys.simulateFrom forcing dt n).state.buffer_capacity
                * (1 - 0.01 * ((sys.simulateFrom forcing dt (n + 1)).state.energy
                    / sys.warning_threshold) * dt)))
      ∧ (¬ (sys.simulateFrom forcing dt (n + 1)).state.energy > sys.warning_threshold →
          (sys.simulateFrom forcing dt (n + 1)).state.buffer_capacity
            = (sys.simulateFrom forcing dt n).state.buffer_capacity) := by
  intro n
  have hb := sys.simulateFrom_buffer_bounds forcing dt hw hdt h0 h1 n
  have hw' : 0 < (sys.simulateFrom forcing dt n).warning_threshold := by
    rw [sys.simulateFrom_warning forcing dt n]
    exact hw
  have step := (sys.simulateFrom forcing dt n).update_buffer_facts
    (forcing n) dt hw' hdt hb.1 hb.2
  rw [sys.simulateFrom_warning forcing dt n] at step
  exact ⟨step.1, hb.1, hb.2, step.2.2.2.1, step.2.2.2.2⟩

/-- Witness for `buffer_capacity_monotone` on the constructed system with
zero forcing and `dt = 0.1` at the first step. -/
theorem buffer_capacity_monotone_witness :
    ((CEEDSystem.init "w").simulateFrom (fun _ => 0) 0.1 1).state.buffer_capacity
      ≤ ((CEEDSystem.init "w").simulateFrom (fun _ => 0) 0.1 0).state.buffer_capacity :=
  (buffer_capacity_monotone (CEEDSystem.init "w") (fun _ => 0) 0.1
    (by norm_num [CEEDSystem.init]) (by norm_num)
    (by norm_num [CEEDSystem.init]) (by norm_num [CEEDSystem.init]) 0).1

/-- `ParameterRange` (`src/experiments/run_mc.py` lines 11-18): a plain
dataclass; its constructor performs no validation. -/
structure ParameterRange where
  name : String
  mean : ℝ
  low : ℝ
  high : ℝ
  distribution : String

/-- C6 counterexample: the claim says construction fails with
`ConfigurationError` when a `ParameterRange` has `low > high`; in the code no
such error exists and the dataclass constructor is total — constructing
`ParameterRange("p", 1.5, low=2, high=1)` succeeds and yields a value whose
`low` exceeds its `high`. -/
theorem parameter_range_invalid_construction_succeeds :
    (ParameterRange.mk "p" 1.5 2 1 "uniform").low
      > (ParameterRange.mk "p" 1.5 2 1 "uniform").high := by
  show (2 : ℝ) > 1
  norm_num

/-- C6 amended: construction never fails and performs no validation.
`CEEDSystem.__init__` takes only a name and hard-codes the strictly ascending
thresholds 100 < 200 < 300; `ParameterRange` accepts any `low`/`high`
(including `low > high`) unchanged; `FeedbackLoop` accepts any
`saturation_threshold` (including nonpositive ones) unchanged. -/
theorem construction_is_total_without_validation :
    (∀ name : String,
      (CEEDSystem.init name).warning_threshold
          < (CEEDSystem.init name).critical_threshold
      ∧ (CEEDSystem.init name).critical_threshold
          < (CEEDSystem.init name).tipping_point)
    ∧ (∀ (nm : String) (m lo hi : ℝ) (d : String),
        (ParameterRange.mk nm m lo hi d).low = lo
        ∧ (ParameterRange.mk nm m lo hi d).high = hi)
    ∧ (∀ (nm pol : String) (s t : ℝ),
        (FeedbackLoop.mk nm pol s (some t)).saturation_threshold = some t) := by
  refine ⟨?_, ?_, ?_⟩
  · intro name
    constructor
    · show (100 : ℝ) < 200
      norm_num
    · show (200 : ℝ) < 300
      norm_num
  · intro nm m lo hi d
    exact ⟨rfl, rfl⟩
  · intro nm pol s t
    rfl

/-- The `critical_thresholds` table shared by `ConvergencePredictor.__init__`
and `ExtendedConvergencePredictor.__init__`
(`src/simulation/convergence_model.py`): phase_1 = 120, phase_2 = 150,
phase_3 = 200, phase_4 = 300. -/
structure CriticalThresholds where
  phase_1 : ℝ
  phase_2 : ℝ
  phase_3 : ℝ
  phase_4 : ℝ

/-- The thresholds constructed by both predictors. -/
noncomputable def defaultCriticalThresholds : CriticalThresholds :=
  { phase_1 := 120, phase_2 := 150, phase_3 := 200, phase_4 := 300 }

/-- The per-point body of `classify_phases`, identical in
`ConvergencePredictor.classify_phases` (lines 327-341) and
`ExtendedConvergencePredictor.classify_phases` (lines 181-196): descending
chain of `>=` tests against phase_4, phase_3 and phase_2 only. -/
noncomputable def classify_phase (th : CriticalThresholds) (E : ℝ) : ℕ :=
  if E ≥ th.phase_4 then 4
  else if E ≥ th.phase_3 then 3
  else if E ≥ th.phase_2 then 2
  else 1

/-- `classify_phases` over a list of per-step total energies. -/
noncomputable def classify_phases (th : CriticalThresholds)
    (total_energy : List ℝ) : List ℕ :=
  total_energy.map (classify_phase th)

/-- C9: the four-phase classifier never consults the lowest (`phase_1 = 120`)
threshold: every total energy strictly below the `phase_2` threshold (150) —
including every `E` with `120 ≤ E < 150` — is assigned phase 1, and the
output is fully determined by the `phase_2`, `phase_3` and `phase_4` cutoffs
alone. -/
theorem classify_phase_ignores_phase_1 :
    (∀ E : ℝ, E < 150 → classify_phase defaultCriticalThresholds E = 1)
    ∧ (∀ E : ℝ, 120 ≤ E → E < 150 →
        classify_phase defaultCriticalThresholds E = 1)
    ∧ ∀ (t u : CriticalThresholds) (E : ℝ),
        t.phase_2 = u.phase_2 → t.phase_3 = u.phase_3 → t.phase_4 = u.phase_4 →
        classify_phase t E = classify_phase u E := by
  have hlow : ∀ E : ℝ, E < 150 → classify_phase defaultCriticalThresholds E = 1 := by
    intro E hE
    unfold classify_phase defaultCriticalThresholds
    rw [if_neg (by simp; linarith), if_neg (by simp; linarith),
      if_neg (by simp; linarith)]
  refine ⟨hlow, fun E _ hE => hlow E hE, ?_⟩
  intro t u E h2 h3 h4
  unfold classify_phase
  rw [h2, h3, h4]

/-- Witness for `classify_phase_ignores_phase_1` at `E = 130`, which lies
above `phase_1 = 120` yet is still classified as phase 1. -/
theorem classify_phase_ignores_phase_1_witness :
    classify_phase defaultCriticalThresholds 130 = 1 :=
  classify_phase_ignores_phase_1.2.1 130 (by norm_num) (by norm_num)

/-- `ExternalEvent` (`src/simulation/convergence_model.py`, dataclass). -/
structure ExternalEvent where
  time : ℝ
  energy : ℝ
  event_type : String

/-- `np.random.uniform(lo, hi)` applied to one ambient unit draw `u ∈ [0,1)`:
`lo + (hi − lo)·u`. -/
noncomputable def uniform_draw (lo hi u : ℝ) : ℝ := lo + (hi - lo) * u

/-- The fields of `ExtendedConvergencePredictor.__init__` that
`unknown_dissipation` reads and writes: `dissipation_saturation = 800`,
`unknown_sink_baseline = 0.15`, and the mutable `events` history. -/
structure ExtendedConvergencePredictor where
  dissipation_saturation : ℝ
  unknown_sink_baseline : ℝ
  events : List ExternalEvent

/-- A fresh predictor as built by `__init__` but with an arbitrary
already-accumulated event history. -/
noncomputable def ExtendedConvergencePredictor.init
    (events : List ExternalEvent) : ExtendedConvergencePredictor :=
  { dissipation_saturation := 800, unknown_sink_baseline := 0.15, events := events }

/-- `ExtendedConvergencePredictor.unknown_dissipation(E_total, t)`
(`src/simulation/convergence_model.py` lines 84-106).  The two ambient random
draws are made explicit: `chance` is the `np.random.random()` draw compared
against 0.05, `u` is the unit draw behind `np.random.uniform(5, 25)`.
Returns the loss value together with the predictor whose `events` list was
(possibly) appended to. -/
noncomputable def ExtendedConvergencePredictor.unknown_dissipation
    (p : ExtendedConvergencePredictor) (E_total t chance u : ℝ) :
    ℝ × ExtendedConvergencePredictor :=
  let saturation_factor := max 0.1 (1 - E_total / p.dissipation_saturation)
  let base_loss := p.unknown_sink_baseline * E_total * saturation_factor
  if chance < 0.05 then
    let volcanic_release := uniform_draw 5 25 u
    (base_loss + volcanic_release,
      { p with events := p.events ++ [⟨t, -volcanic_release, "volcanic"⟩] })
  else
    (base_loss, p)

/-- C7: on each evaluation of the extended model's `unknown_dissipation`, the
deterministic part equals `0.15 · E · max 0.1 (1 − E/800)`; when the 5%%
per-step chance fires, the uniformly-sampled release magnitude `r ∈ [5,25]`
is recorded as a new `volcanic` event with energy delta `−r`, while the
returned loss equals the baseline loss PLUS `r` (the documented sign oddity,
preserved literally); otherwise the baseline loss is returned and the event
history is unchanged. -/
theorem unknown_dissipation_sign_oddity
    (events : List ExternalEvent) (E t chance u : ℝ)
    (hu0 : 0 ≤ u) (hu1 : u ≤ 1) :
    (chance < 0.05 →
      ((ExtendedConvergencePredictor.init events).unknown_dissipation E t chance u).1
          = 0.15 * E * max 0.1 (1 - E / 800) + uniform_draw 5 25 u
      ∧ ((ExtendedConvergencePredictor.init events).unknown_dissipation E t chance u).2.events
          = events ++ [⟨t, -uniform_draw 5 25 u, "volcanic"⟩]
      ∧ 5 ≤ uniform_draw 5 25 u ∧ uniform_draw 5 25 u ≤ 25)
    ∧ (¬ chance < 0.05 →
      ((ExtendedConvergencePredictor.init events).unknown_dissipation E t chance u).1
          = 0.15 * E * max 0.1 (1 - E / 800)
      ∧ ((ExtendedConvergencePredictor.init events).unknown_dissipation E t chance u).2.events
          = events) := by
  unfold ExtendedConvergencePredictor.unknown_dissipation
    ExtendedConvergencePredictor.init
  constructor
  · intro hc
    rw [if_pos hc]
    refine ⟨rfl, rfl, ?_, ?_⟩
    · unfold uniform_draw
      nlinarith
    · unfold uniform_draw
      nlinarith
  · intro hc
    rw [if_neg hc]
    exact ⟨rfl, rfl⟩

/-- Witness for `unknown_dissipation_sign_oddity`: with `chance = 0.01`
(firing) and unit draw `u = 0.5`, the returned loss adds the release
magnitude 15 to the baseline loss. -/
theorem unknown_dissipation_sign_oddity_witness :
    ((ExtendedConvergencePredictor.init []).unknown_dissipation 100 0 0.01 0.5).1
      = 0.15 * 100 * max 0.1 (1 - 100 / 800) + uniform_draw 5 25 0.5 :=
  ((unknown_dissipation_sign_oddity [] 100 0 0.01 0.5
    (by norm_num) (by norm_num)).1 (by norm_num)).1

/-- `sample_parameter(param)` (`src/experiments/run_mc.py` lines 20-29) with
the ambient draw made explicit: `u` is the single value the function pulls
from the global numpy RNG — the unit draw behind `np.random.uniform(low,
high)` for the uniform branch, the standardized draw behind
`np.random.normal(mean, (high−low)/4)` for the normal branch; any other
distribution string returns the mean without drawing. -/
noncomputable def sample_parameter (p : ParameterRange) (u : ℝ) : ℝ :=
  if p.distribution = "uniform" then uniform_draw p.low p.high u
  else if p.distribution = "normal" then p.mean + ((p.high - p.low) / 4) * u
  else p.mean

/-- The four parameter ranges hard-coded in `run_monte_carlo`
(`src/experiments/run_mc.py` lines 40-46), in dict insertion order. -/
noncomputable def ecsRange : ParameterRange :=
  ⟨"ECS", 3.0, 2.5, 4.0, "normal"⟩

/-- Aerosol effective radiative forcing range (uniform). -/
noncomputable def aerosolRange : ParameterRange :=
  ⟨"Aerosol ERF", -1.1, -1.7, -0.4, "uniform"⟩

/-- Carbon sink strength range (uniform). -/
noncomputable def sinkRange : ParameterRange :=
  ⟨"Sink strength", 0.54, 0.45, 0.60, "uniform"⟩

/-- Permafrost feedback strength range (uniform). -/
noncomputable def permafrostRange : ParameterRange :=
  ⟨"Permafrost", 95, 14, 175, "uniform"⟩

/-- One timestep of `run_simple_model` (`src/experiments/run_mc.py`
lines 87-142): temperature and CO2 update with `dt = 0.1`.  The code updates
`T` first and then computes the carbon sink from that post-step temperature
(line 137), hence `sink` is taken at `T'` here, while the permafrost,
retention and dissipation terms use the pre-step `T`. -/
noncomputable def simpleModelStep (ECS aerosol_ERF sink_strength permafrost_rate : ℝ)
    (TC : ℝ × ℝ) : ℝ × ℝ :=
  let T := TC.1
  let CO2 := TC.2
  let CO2_forcing := ECS * Real.log (CO2 / 280) / Real.log 2
  let permafrost_forcing :=
    if T > 0.5 then (permafrost_rate / 1000) * 0.5 * (T - 0.5) else 0
  let total_forcing := CO2_forcing + aerosol_ERF + permafrost_forcing
  let retention := 1.05 * Real.exp (-(0.0008) * T ^ 2)
  let dissipation := 0.04 * T + 0.01 * T ^ ((1.2 : ℝ))
  let T' := T + 0.1 * (total_forcing * retention - dissipation) * 0.1
  let sink := sink_strength * Real.exp (-(0.08) * T')
  let net_emissions := 10.0 * (1 - sink)
  let CO2' := CO2 + (net_emissions / 2.12) * 0.1
  (T', CO2')

/-- `run_simple_model(horizon_years, ECS, aerosol_ERF, sink_strength,
permafrost_rate)`: iterate `int(horizon_years / 0.1)` steps from
`T = 1.1`, `CO2 = 420`; deterministic in its arguments (no random draws). -/
noncomputable def run_simple_model
    (horizon_years ECS aerosol_ERF sink_strength permafrost_rate : ℝ) : ℝ × ℝ :=
  (simpleModelStep ECS aerosol_ERF sink_strength
    permafrost_rate)^[(⌊horizon_years / 0.1⌋).toNat] (1.1, 420)

/-- Results dictionary of `run_monte_carlo` (its `'parameters'` sub-dict
flattened into the four per-parameter sample lists). -/
structure MCResult where
  temperatures : List ℝ
  co2 : List ℝ
  ecs_samples : List ℝ
  aerosol_samples : List ℝ
  sink_samples : List ℝ
  permafrost_samples : List ℝ
  n_samples : ℕ
  horizon : ℝ

/-- The four parameter values sampled for ensemble member `i`: the loop body
of `run_monte_carlo` draws once per parameter in dict order, so member `i`
consumes ambient draws `4i, 4i+1, 4i+2, 4i+3` of the global stream `g`. -/
noncomputable def sampledParams (g : ℕ → ℝ) (i : ℕ) : ℝ × ℝ × ℝ × ℝ :=
  (sample_parameter ecsRange (g (4 * i)),
   sample_parameter aerosolRange (g (4 * i + 1)),
   sample_parameter sinkRange (g (4 * i + 2)),
   sample_parameter permafrostRange (g (4 * i + 3)))

/-- Terminal `(T, CO2)` of ensemble member `i`. -/
noncomputable def memberResult (horizon_years : ℝ) (g : ℕ → ℝ) (i : ℕ) : ℝ × ℝ :=
  run_simple_model horizon_years (sampledParams g i).1 (sampledParams g i).2.1
    (sampledParams g i).2.2.1 (sampledParams g i).2.2.2

/-- `run_monte_carlo(n_samples, horizon_years)` (`src/experiments/run_mc.py`
lines 31-84).  The function takes NO seed; every random draw goes through the
ambient global numpy RNG, modelled here as the explicit stream `g` consumed
in program order. -/
noncomputable def run_monte_carlo (n_samples : ℕ) (horizon_years : ℝ)
    (g : ℕ → ℝ) : MCResult :=
  { temperatures := (List.range n_samples).map fun i => (memberResult horizon_years g i).1
    co2 := (List.range n_samples).map fun i => (memberResult horizon_years g i).2
    ecs_samples := (List.range n_samples).map fun i => (sampledParams g i).1
    aerosol_samples := (List.range n_samples).map fun i => (sampledParams g i).2.1
    sink_samples := (List.range n_samples).map fun i => (sampledParams g i).2.2.1
    permafrost_samples := (List.range n_samples).map fun i => (sampledParams g i).2.2.2
    n_samples := n_samples
    horizon := horizon_years }

/-- Pointwise-equal functions map a list to equal results. -/
theorem list_map_congr_mem {α β : Type} (l : List α) (f g : α → β)
    (h : ∀ a ∈ l, f a = g a) : l.map f = l.map g := by
  induction l with
  | nil => rfl
  | cons a l ih =>
      rw [List.map_cons, List.map_cons, h a (List.mem_cons_self a l),
        ih (fun b hb => h b (List.mem_cons_of_mem a hb))]

/-- C3 counterexample: `run_monte_carlo` has no seed parameter and reads the
ambient global RNG, so its output is NOT a deterministic function of
(parameter ranges, n, horizon, seed): with `n = 200` and `horizon = 10`, two
invocations under different ambient RNG states (unit-draw streams constantly
0 versus constantly 1) produce different results — already the first sampled
ECS value differs (3.0 versus 3.375). -/
theorem run_monte_carlo_not_seed_deterministic :
    run_monte_carlo 200 10 (fun _ => 0) ≠ run_monte_carlo 200 10 (fun _ => 1) := by
  intro h
  have h1 := congrArg (fun r => r.ecs_samples.head?) h
  simp only [run_monte_carlo] at h1
  rw [List.head?_map, List.head?_map] at h1
  have hr : (List.range 200).head? = some 0 := rfl
  rw [hr] at h1
  simp only [Option.map_some'] at h1
  have h2 : sample_parameter ecsRange 0 = sample_parameter ecsRange 1 :=
    Option.some.inj h1
  unfold sample_parameter ecsRange at h2
  norm_num at h2
  have hne : ("normal" : String) ≠ "uniform" := by decide
  rw [if_neg hne, if_neg hne] at h2
  norm_num at h2

/-- C3 amended: the ensemble run is a deterministic function of
(parameter ranges, n, horizon) and the ambient RNG stream: two invocations
that consume identical draws (the first `4·n` values of the global stream)
produce identical results.  Bit-for-bit reproducibility therefore holds only
when the ambient global RNG state is identical, not as a function of an
injectable seed — the code has none. -/
theorem run_monte_carlo_deterministic_in_stream (n : ℕ) (h : ℝ) (g g' : ℕ → ℝ)
    (hagree : ∀ i, i < 4 * n → g i = g' i) :
    run_monte_carlo n h g = run_monte_carlo n h g' := by
  have hs : ∀ i ∈ List.range n, sampledParams g i = sampledParams g' i := by
    intro i hi
    have hin : i < n := List.mem_range.mp hi
    unfold sampledParams
    rw [hagree (4 * i) (by omega), hagree (4 * i + 1) (by omega),
      hagree (4 * i + 2) (by omega), hagree (4 * i + 3) (by omega)]
  have hm : ∀ i ∈ List.range n, memberResult h g i = memberResult h g' i := by
    intro i hi
    unfold memberResult
    rw [hs i hi]
  unfold run_monte_carlo
  congr 1
  · exact list_map_congr_mem _ _ _ (fun i hi => by rw [hm i hi])
  · exact list_map_congr_mem _ _ _ (fun i hi => by rw [hm i hi])
  · exact list_map_congr_mem _ _ _ (fun i hi => by rw [hs i hi])
  · exact list_map_congr_mem _ _ _ (fun i hi => by rw [hs i hi])
  · exact list_map_congr_mem _ _ _ (fun i hi => by rw [hs i hi])
  · exact list_map_congr_mem _ _ _ (fun i hi => by rw [hs i hi])

/-- Witness for `run_monte_carlo_deterministic_in_stream`: two streams that
agree on the first 8 draws give identical 2-member ensembles. -/
theorem run_monte_carlo_deterministic_in_stream_witness :
    run_monte_carlo 2 10 (fun _ => (0 : ℝ))
      = run_monte_carlo 2 10 (fun i => if i < 8 then (0 : ℝ) else 1) :=
  run_monte_carlo_deterministic_in_stream 2 10 _ _ (by
    intro i hi
    have h8 : i < 8 := by omega
    simp [h8])

end CEED
